import Mathlib

/-!
Verification of `ice-009/caravan-privacy_test_wallet_scripts` (src/index.ts) against its
natural-language specification.  Each TS function relevant to a claim is shallowly embedded
as an executable Lean definition; theorems about those definitions settle the claims.
Amounts are modelled as `Rat` (the node reports decimal BTC), RPC failures as `Except`.
-/

namespace Caravan

/-- An RPC error as surfaced by the node client: a numeric code and a message. -/
structure RpcError where
  code : Int
  msg : String
deriving Repr, DecidableEq

/-- JS `String.includes`: `pat` occurs as a contiguous substring of `s`. -/
def containsStr (s pat : String) : Bool :=
  (List.range (s.toList.length + 1)).any fun i => pat.toList.isPrefixOf (s.toList.drop i)

/-- The wallet-RPC surface that `loadOrCreateWallet` uses, abstracted over the node state type `σ`.  Every call threads the node state, and an erroring call may still advance it
(the node is an external process; this is what lets the documented load/create race be
expressed). -/
structure NodeOps (σ : Type) where
  listwallets : σ → σ × List String
  loadwallet : σ → String → σ × Except RpcError Unit
  createwallet : σ → String → σ × Except RpcError Unit

/-- Shallow embedding of `loadOrCreateWallet` (src/index.ts:34-68).  Returns the node state
after the call, the result (`.ok name` stands for the returned client handle bound to
wallet `name`; `.error e` for the propagated exception), and the trace of wallet-management
RPC methods issued, in order.  Control flow follows the source exactly: `listwallets`;
if listed, reuse; else try `loadwallet`; on failure try `createwallet`; if that fails with
code −4 and a message containing "Database already exists", issue `loadwallet` once more
(uncaught); any other create failure is rethrown. -/
def loadOrCreateWallet (ops : NodeOps σ) (st : σ) (name : String) :
    σ × Except RpcError String × List String :=
  let l1 := ops.listwallets st
  if l1.2.contains name then
    (l1.1, .ok name, ["listwallets"])
  else
    let l2 := ops.loadwallet l1.1 name
    match l2.2 with
    | .ok _ => (l2.1, .ok name, ["listwallets", "loadwallet"])
    | .error _ =>
      let l3 := ops.createwallet l2.1 name
      match l3.2 with
      | .ok _ => (l3.1, .ok name, ["listwallets", "loadwallet", "createwallet"])
      | .error e =>
        if e.code == -4 && containsStr e.msg "Database already exists" then
          let l4 := ops.loadwallet l3.1 name
          match l4.2 with
          | .ok _ =>
            (l4.1, .ok name, ["listwallets", "loadwallet", "createwallet", "loadwallet"])
          | .error e2 =>
            (l4.1, .error e2, ["listwallets", "loadwallet", "createwallet", "loadwallet"])
        else (l3.1, .error e, ["listwallets", "loadwallet", "createwallet"])

/-- Modelled from the spec: the wallet state of the external node — the set of wallets existing
on disk and the subset currently loaded (spec §4.1, §6; the node itself is an external
collaborator, not code of this repository). -/
structure NodeState where
  onDisk : List String
  loaded : List String
deriving Repr, DecidableEq

/-- Modelled from the spec: the documented sequential semantics of the node RPCs
`listwallets` / `loadwallet` / `createwallet` (spec §4.1, §6).  `loadwallet` succeeds
exactly on an on-disk, unloaded wallet; `createwallet` fails with code −4 and a
"Database already exists" message exactly when the wallet already exists on disk. -/
def stdOps : NodeOps NodeState where
  listwallets st := (st, st.loaded)
  loadwallet st name :=
    if st.loaded.contains name then
      (st, .error ⟨-35, "Wallet is already loaded."⟩)
    else if st.onDisk.contains name then
      ({ st with loaded := name :: st.loaded }, .ok ())
    else
      (st, .error ⟨-18, "Wallet file not found."⟩)
  createwallet st name :=
    if st.onDisk.contains name then
      (st, .error ⟨-4, "Failed to create database path. Database already exists."⟩)
    else
      (⟨name :: st.onDisk, name :: st.loaded⟩, .ok ())

/-! ### C9: `syncWallet` -/

/-- Result of a `syncWallet` run: how many `getbalance` polls were issued, whether the
loop converged on a positive balance, and whether the timeout `rescanblockchain` was
issued. -/
structure SyncResult where
  polls : Nat
  converged : Bool
  rescan : Bool
deriving Repr, DecidableEq

/-- Whether one `getbalance` poll outcome makes the `syncWallet` loop stop: the call
succeeded and returned a strictly positive balance. -/
def pollSuccess : Except Unit Rat → Bool
  | .ok b => decide (0 < b)
  | .error _ => false

/-- The polling loop of `syncWallet` (src/index.ts:87-105): up to `maxAttempts = 20`
iterations; each queries `getbalance` (`gb n` is the outcome of poll `n`; `.error` means
the call threw) and stops early exactly when the balance is strictly positive; a failed or
zero-balance poll increments the attempt counter.  After the loop, the timeout branch
(src/index.ts:107-115) issues `rescanblockchain` exactly when all 20 attempts were used. -/
def syncWalletLoop (gb : Nat → Except Unit Rat) (attempts : Nat) : SyncResult :=
  if attempts < 20 then
    match gb attempts with
    | .ok b =>
      if 0 < b then ⟨attempts + 1, true, false⟩ else syncWalletLoop gb (attempts + 1)
    | .error _ => syncWalletLoop gb (attempts + 1)
  else ⟨attempts, false, true⟩
termination_by 20 - attempts

/-- Shallow embedding of `syncWallet` (src/index.ts:81-116): it first reads the chain
height (`getblockchaininfo.blocks`, bound to `currentHeight` and never used afterwards),
then runs the bounded polling loop from attempt 0. -/
def syncWallet (currentHeight : Nat) (gb : Nat → Except Unit Rat) : SyncResult :=
  syncWalletLoop gb 0

/-! ### C3: per-signer key extraction in `createTwoSignerWallets` -/

/-- `s.padStart(8, "0")` of JS, as used for the fallback fingerprint and the synthesized
xpub suffix. -/
def padZeros8 (s : String) : String :=
  String.mk (List.replicate (8 - s.length) '0') ++ s

/-- The synthesized extended key of the fallback tiers (src/index.ts:212 and 217):
`"tpub661MyMwAqRbcF" + pubkey.slice(2, 72) + i.toString().padStart(8, "0")`. -/
def synthXpub (pubkey : String) (i : Nat) : String :=
  "tpub661MyMwAqRbcF" ++ String.mk ((pubkey.toList.drop 2).take 70) ++ padZeros8 (Nat.repr i)

/-- Outcomes of the node calls made by the per-signer extraction block of
`createTwoSignerWallets` (src/index.ts:169-220).  There are two
`getnewaddress`/`getaddressinfo` call sites (one inside the `try`, one in the `catch`), so
each gets its own outcome; `descMatch` abstracts the JS regex
`/\[([a-fA-F0-9]{8})\/[^\]]+\]([xtpub][a-zA-Z0-9]+)/` as the optional pair of its two
capture groups (fingerprint, xpub); `getwalletinfo` yields the `hdseedid` field, with `""`
standing for a missing (falsy) field. -/
structure ExtractCalls where
  listdescriptors : Except RpcError (List String)
  descMatch : String → Option (String × String)
  addrPubkeyTry : Except RpcError String
  addrPubkeyCatch : Except RpcError String
  getwalletinfo : Except RpcError String

/-- The (fingerprint, xpub) pair obtained from the receiving descriptor
(src/index.ts:178-192): pick the first descriptor containing `"wpkh"` and `"/0/*"` (or
else the first descriptor) and apply the regex; when it does not match, the initial
values `("00000000", "")` are kept. -/
def descGroups (c : ExtractCalls) (descs : List String) : String × String :=
  match c.descMatch
      ((descs.find? fun d => containsStr d "wpkh" && containsStr d "/0/*").getD
        (descs.headD "")) with
  | some m => m
  | none => ("00000000", "")

/-- The `try` tier of the extraction block (src/index.ts:174-198): on a nonempty
descriptor list it reads the regex groups and a fresh-address pubkey; on an *empty*
descriptor list nothing runs, no exception is thrown, and the initial values
`("", "", "00000000")` are returned. -/
def extractKeysTry (c : ExtractCalls) : Except RpcError (String × String × String) :=
  match c.listdescriptors with
  | .error e => .error e
  | .ok descs =>
    if descs.length > 0 then
      match c.addrPubkeyTry with
      | .error e => .error e
      | .ok pk => .ok (pk, (descGroups c descs).2, (descGroups c descs).1)
    else .ok ("", "", "00000000")

/-- The `catch` tier of the extraction block (src/index.ts:199-220): re-read a
fresh-address pubkey (uncaught: its failure propagates out), then try `getwalletinfo`:
with a truthy `hdseedid` it synthesizes the xpub and takes the first 8 characters of the
seed id as fingerprint; a falsy `hdseedid` keeps the initial values; a thrown
`getwalletinfo` falls to the deterministic last resort. -/
def extractKeysCatch (c : ExtractCalls) (i : Nat) :
    Except RpcError (String × String × String) :=
  match c.addrPubkeyCatch with
  | .error e => .error e
  | .ok pk =>
    match c.getwalletinfo with
    | .ok seed =>
      if seed ≠ "" then .ok (pk, synthXpub pk i, String.mk (seed.toList.take 8))
      else .ok (pk, "", "00000000")
    | .error _ => .ok (pk, synthXpub pk i, padZeros8 (Nat.repr (i + 1)))

/-- Shallow embedding of the key/descriptor extraction block of `createTwoSignerWallets`
(src/index.ts:169-220) for signer index `i`: the `try` tier runs first and its thrown
errors fall to the `catch` tier; a `try` tier that completes wins.  Returns
`(pubkey, xpub, xfp)`. -/
def extractKeys (c : ExtractCalls) (i : Nat) : Except RpcError (String × String × String) :=
  match extractKeysTry c with
  | .ok r => .ok r
  | .error _ => extractKeysCatch c i

/-- Concrete extraction outcomes where `listdescriptors` succeeds with an *empty*
descriptor list: the `try` tier runs nothing and no exception reaches the fallback
tiers. -/
def emptyDescCalls : ExtractCalls where
  listdescriptors := .ok []
  descMatch _ := none
  addrPubkeyTry := .ok "02ab"
  addrPubkeyCatch := .ok "02ab"
  getwalletinfo := .ok "deadbeef01"

/-- Concrete extraction outcomes exercising the `catch` tier with a seeded wallet. -/
def seededCatchCalls : ExtractCalls where
  listdescriptors := .error ⟨-1, "method not found"⟩
  descMatch _ := none
  addrPubkeyTry := .error ⟨-1, "method not found"⟩
  addrPubkeyCatch := .ok "02ff"
  getwalletinfo := .ok "deadbeef01"

/-! ### C4, C5: `setupMultisigWithTwoWallets` -/

/-- A signer record as assembled by `createTwoSignerWallets` (src/index.ts:222-228): the
per-signer wallet handle (identified by wallet name) and its extracted key material. -/
structure Signer where
  wallet : String
  pubkey : String
  xpub : String
  xfp : String
  name : String
deriving Repr, DecidableEq

/-- Shallow embedding of the coordinator selection of `setupMultisigWithTwoWallets`
(src/index.ts:247-250):
`signers.reduce((prev, current) => prev.wallet === current.wallet ? prev : prev).wallet`.
JS `Array.prototype.reduce` without an initial value starts from the first element, folds
over the rest, and throws on an empty array (`none` here). -/
def coordinatorWalletOf (signers : List Signer) : Option String :=
  match signers with
  | [] => none
  | s :: rest =>
    some ((rest.foldl
      (fun prev current => if prev.wallet = current.wallet then prev else prev) s).wallet)

/-- The insufficient-funds error of `setupMultisigWithTwoWallets` (src/index.ts:274),
carrying the observed coordinator balance. -/
structure InsufficientFundsError where
  balance : Rat
deriving Repr, DecidableEq

/-- Shallow embedding of the balance check of `setupMultisigWithTwoWallets`
(src/index.ts:255-276): `balance` is the coordinator balance first observed; when it is
below 15, 75 blocks are mined to every signer wallet and the balance is re-read as
`rechecked`; the error is thrown exactly when the re-read balance is below 10.  Returns
the thrown error or the balance assembly proceeds with, paired with the number of blocks
mined per signer wallet (0 when no re-mining happened). -/
def multisigBalanceCheck (balance rechecked : Rat) :
    Except InsufficientFundsError Rat × Nat :=
  if balance < 15 then
    (if rechecked < 10 then (.error ⟨rechecked⟩, 75) else (.ok rechecked, 75))
  else (.ok balance, 0)

/-! ### C6, C7, C8: `wasteHeavy` -/

/-- JS object-literal insertion `obj[key] = v` for a string-keyed, insertion-ordered
object: overwrite if the key is present, append otherwise. -/
def objInsert (m : List (String × Rat)) (k : String) (v : Rat) : List (String × Rat) :=
  if m.any (fun e => e.1 = k) then m.map (fun e => if e.1 = k then (k, v) else e)
  else m ++ [(k, v)]

/-- Shallow embedding of the waste-heavy dust step (src/index.ts:353-363): generate 20
fresh addresses (`addr i` is the result of the i-th `getnewaddress`), map each to 0.00001
in one output object, send that object with a single `sendmany`, and mine one confirming
block.  Returns the output object together with the number of `sendmany` calls and of
blocks mined. -/
def dustStep (addr : Nat → String) : List (String × Rat) × Nat × Nat :=
  ((List.range 20).foldl (fun m i => objInsert m (addr i) (1 / 100000)) [], 1, 1)

/-- Shallow embedding of the waste-heavy RBF fee-bump loop (src/index.ts:456-464):
starting from the id of the original RBF-enabled send, for `i = 0, 1, 2` attempt `bumpfee`
with `fee_rate = 10 + i * 5`; a successful bump (`bump i rate = some t`) replaces the held
txid with `t`, a failed one (`none`) is caught, logged, and leaves it unchanged.  Returns
the txid held after the loop and the trace of `(attempt, fee_rate)` pairs tried, in
order. -/
def rbfBumpLoop (origTxid : String) (bump : Nat → Nat → Option String) :
    String × List (Nat × Nat) :=
  (List.range 3).foldl
    (fun acc i =>
      match bump i (10 + i * 5) with
      | some t => (t, acc.2 ++ [(i, 10 + i * 5)])
      | none => (acc.1, acc.2 ++ [(i, 10 + i * 5)]))
    (origTxid, [])

/-- Per-pattern outcomes of one `wasteHeavy` run (src/index.ts:350-490): for each of the
seven numbered waste patterns, whether the RPC work inside it succeeds or throws
(`.error` carries the thrown message).  Pattern 5 has five individually guarded OP_RETURN
attempts, so each gets its own outcome.  The `mine` calls between patterns and the
unguarded per-attempt `listunspent`/`getnewaddress` reads of pattern 5 are modelled as
succeeding. -/
structure WastePatternOutcomes where
  dust : Except String Unit
  smallUtxos : Except String Unit
  weirdChange : Except String Unit
  consolidation : Except String Unit
  opReturnAttempt : Nat → Except String Unit
  rbf : Except String Unit
  chain : Except String Unit

/-- Shallow embedding of the waste-pattern sequence of `wasteHeavy`
(src/index.ts:350-490), keeping the try/catch structure: patterns 1-4 (dust, 15 small
sends, 8 odd-precision sends, consolidation) run with no surrounding try/catch, so a throw
there propagates and aborts the scenario; each of the five OP_RETURN attempts of pattern 5
is wrapped in its own try/catch (src/index.ts:421-439), and patterns 6 (RBF,
src/index.ts:451-467) and 7 (unconfirmed chain, src/index.ts:472-489) are each wrapped in
a try/catch, so their failures are logged and the run continues.  Returns the log of
caught failure messages. -/
def wasteHeavyPatterns (o : WastePatternOutcomes) : Except String (List String) :=
  match o.dust with
  | .error e => .error e
  | .ok _ =>
    match o.smallUtxos with
    | .error e => .error e
    | .ok _ =>
      match o.weirdChange with
      | .error e => .error e
      | .ok _ =>
        match o.consolidation with
        | .error e => .error e
        | .ok _ =>
          let log5 := (List.range 5).filterMap fun j =>
            match o.opReturnAttempt j with
            | .ok _ => none
            | .error e => some e
          let log6 := match o.rbf with | .ok _ => [] | .error e => [e]
          let log7 := match o.chain with | .ok _ => [] | .error e => [e]
          .ok (log5 ++ log6 ++ log7)

/-- Concrete outcomes where pattern 1 (the dust `sendmany`) throws and everything else
succeeds. -/
def dustFailOutcomes : WastePatternOutcomes where
  dust := .error "sendmany failed"
  smallUtxos := .ok ()
  weirdChange := .ok ()
  consolidation := .ok ()
  opReturnAttempt _ := .ok ()
  rbf := .ok ()
  chain := .ok ()

/-- Concrete outcomes where patterns 1-4 succeed and failures occur inside patterns 5
and 6. -/
def tailFailOutcomes : WastePatternOutcomes where
  dust := .ok ()
  smallUtxos := .ok ()
  weirdChange := .ok ()
  consolidation := .ok ()
  opReturnAttempt j := if j == 2 then .error "op_return attempt 3 failed" else .ok ()
  rbf := .error "bumpfee failed"
  chain := .ok ()

/-! ### C2, C10: scenario dispatch and the Caravan fixture -/

/-- The network field of the loaded configuration (src/index.ts:10). -/
inductive CfgNetwork
  | regtest
  | signet
deriving Repr, DecidableEq

/-- The loaded `regtest.json` configuration (src/index.ts:9-20). -/
structure RegtestConfig where
  network : CfgNetwork
  host : String
  port : Nat
  username : String
  password : String
  wallet : String
deriving Repr, DecidableEq

/-- One entry of the `extendedPublicKeys` array of the written fixture
(src/index.ts:321-327). -/
structure ExtendedPublicKeyEntry where
  name : String
  xpub : String
  bip32Path : String
  xfp : String
  method : String
deriving Repr, DecidableEq

/-- The `quorum` object of the written fixture (src/index.ts:317-320). -/
structure CaravanQuorum where
  requiredSigners : Nat
  totalSigners : Nat
deriving Repr, DecidableEq

/-- The Caravan fixture object written by `saveCaravanConfig` (src/index.ts:313-329). -/
structure CaravanConfig where
  name : String
  addressType : String
  network : String
  quorum : CaravanQuorum
  extendedPublicKeys : List ExtendedPublicKeyEntry
  startingAddressIndex : Nat
deriving Repr, DecidableEq

/-- The per-signer key material passed to `saveCaravanConfig` (src/index.ts:312). -/
structure SignerData where
  pubkey : String
  xpub : String
  xfp : String
  name : String
deriving Repr, DecidableEq

/-- Shallow embedding of `saveCaravanConfig` (src/index.ts:312-341) as the fixture value
it serializes to `<scenarioName>_caravan.json`.  `cfg` is the module-level loaded
configuration in scope at the call site; the source never reads it here — every field
below that is not taken from `scenarioName`/`signerData` is a literal, including
`network: "regtest"`, `addressType: "P2WSH"`, `bip32Path: "m/84\x27/0\x27/0\x27"`,
`method: "text"`, and `startingAddressIndex: 0`. -/
def saveCaravanConfig (cfg : RegtestConfig) (scenarioName : String)
    (signerData : List SignerData) : CaravanConfig where
  name := scenarioName ++ " Multisig (2-of-2)"
  addressType := "P2WSH"
  network := "regtest"
  quorum := ⟨2, 2⟩
  extendedPublicKeys := signerData.map fun signer =>
    ⟨signer.name, signer.xpub, "m/84\x27/0\x27/0\x27", signer.xfp, "text"⟩
  startingAddressIndex := 0

/-- The scenario generators defined in src/index.ts. -/
inductive Scenario
  | privacyGoodS
  | privacyBadS
  | wasteHeavyS
deriving Repr, DecidableEq

/-- Shallow embedding of the main scenario-runner IIFE (src/index.ts:676-706): the list of
generators a given `--scenario` value dispatches to, in order.  In the source the
`privacy-good` branch (lines 680-683) and the `privacy-bad` branch (lines 685-688) are
commented out; only the `waste-heavy` branch (lines 690-693) is live, so `"privacy-good"`
and `"privacy-bad"` dispatch to nothing and `"all"` runs only `wasteHeavy`. -/
def scenariosRun (scenario : String) : List Scenario :=
  if scenario = "waste-heavy" ∨ scenario = "all" then [Scenario.wasteHeavyS] else []

/-- The send schedule of the `privacyGood` generator body (src/index.ts:523-529): ten
rounds, each sending amount 1.0 to a fresh address (`addr i` is the i-th `getnewaddress`
result) followed by one mined block. -/
def privacyGoodSends (addr : Nat → String) : List (String × Rat) :=
  (List.range 10).map fun i => (addr i, 1)

/-- A scripted node exercising the documented create/load race, with a call counter as
state: the first `loadwallet` fails with a lock error, `createwallet` fails with code −4
and a "Database already exists" message, and the second `loadwallet` succeeds. -/
def raceOps : NodeOps Nat where
  listwallets n := (n + 1, [])
  loadwallet n _ :=
    (n + 1, if n == 1 then .error ⟨-4, "Unable to obtain an exclusive lock"⟩ else .ok ())
  createwallet n _ :=
    (n + 1, .error ⟨-4, "Failed to create database path. Database already exists."⟩)

/-- A scripted node where `loadwallet` fails and `createwallet` fails with an unrelated
error (code −28), which `loadOrCreateWallet` must propagate. -/
def busyOps : NodeOps Nat where
  listwallets n := (n + 1, [])
  loadwallet n _ := (n + 1, .error ⟨-18, "Wallet file not found."⟩)
  createwallet n _ := (n + 1, .error ⟨-28, "Loading block index"⟩)

/-- A scripted `getbalance` sequence: poll 0 returns balance 0, poll 1 throws, poll 2
returns 5. -/
def gbHit : Nat → Except Unit Rat :=
  fun n => if n = 2 then .ok 5 else if n = 1 then .error () else .ok 0

/-- A scripted `getbalance` sequence that always returns balance 0. -/
def gbZero : Nat → Except Unit Rat := fun _ => .ok 0

/-! ## Theorems -/

/-- **C1.** Wallet acquisition is idempotent: from any node state whose loaded set is a
subset of the on-disk set (so the wallet is nonexistent, on-disk-unloaded, or loaded),
`loadOrCreateWallet` succeeds, returns a handle bound to `name`, and a second call from the
resulting state succeeds again with the same handle and the same state, touching only
`listwallets`.  Resolution follows the list-then-load-then-create order, a create failure
of code −4 with a "Database already exists" message is recovered by a second load, and any
other create failure propagates. -/
theorem loadOrCreateWallet_idempotent_c1 :
    (∀ (st : NodeState) (name : String),
      st.loaded ⊆ st.onDisk →
      ∃ st' : NodeState,
        (loadOrCreateWallet stdOps st name).1 = st' ∧
        (loadOrCreateWallet stdOps st name).2.1 = .ok name ∧
        loadOrCreateWallet stdOps st' name = (st', .ok name, ["listwallets"]))
    ∧
    (∀ (st : NodeState) (name : String),
      (name ∈ st.loaded →
        (loadOrCreateWallet stdOps st name).2.2 = ["listwallets"]) ∧
      (name ∉ st.loaded → name ∈ st.onDisk →
        (loadOrCreateWallet stdOps st name).2.2 = ["listwallets", "loadwallet"]) ∧
      (name ∉ st.loaded → name ∉ st.onDisk →
        (loadOrCreateWallet stdOps st name).2.2 =
          ["listwallets", "loadwallet", "createwallet"]))
    ∧
    (∀ (σ : Type) (ops : NodeOps σ) (st : σ) (name : String) (e1 e : RpcError),
      name ∉ (ops.listwallets st).2 →
      (ops.loadwallet (ops.listwallets st).1 name).2 = .error e1 →
      (ops.createwallet (ops.loadwallet (ops.listwallets st).1 name).1 name).2 = .error e →
      (e.code == -4 && containsStr e.msg "Database already exists") = true →
      (ops.loadwallet
        (ops.createwallet (ops.loadwallet (ops.listwallets st).1 name).1 name).1 name).2 =
        .ok () →
      (loadOrCreateWallet ops st name).2.1 = .ok name)
    ∧
    (∀ (σ : Type) (ops : NodeOps σ) (st : σ) (name : String) (e1 e : RpcError),
      name ∉ (ops.listwallets st).2 →
      (ops.loadwallet (ops.listwallets st).1 name).2 = .error e1 →
      (ops.createwallet (ops.loadwallet (ops.listwallets st).1 name).1 name).2 = .error e →
      (e.code == -4 && containsStr e.msg "Database already exists") = false →
      (loadOrCreateWallet ops st name).2.1 = .error e) := by
  refine ⟨?_, ?_, ?_, ?_⟩
  · intro st name hsub
    by_cases h1 : name ∈ st.loaded
    · exact ⟨st, by simp [loadOrCreateWallet, stdOps, h1]⟩
    · by_cases h2 : name ∈ st.onDisk
      · refine ⟨{ st with loaded := name :: st.loaded }, ?_, ?_, ?_⟩ <;>
          simp [loadOrCreateWallet, stdOps, h1, h2]
      · have h1' : name ∉ st.loaded := h1
        refine ⟨⟨name :: st.onDisk, name :: st.loaded⟩, ?_, ?_, ?_⟩ <;>
          simp [loadOrCreateWallet, stdOps, h1, h2]
  · intro st name
    refine ⟨fun h1 => ?_, fun h1 h2 => ?_, fun h1 h2 => ?_⟩
    · simp [loadOrCreateWallet, stdOps, h1]
    · simp [loadOrCreateWallet, stdOps, h1, h2]
    · simp [loadOrCreateWallet, stdOps, h1, h2]
  · intro σ ops st name e1 e hlist hload hcreate hmatch hload2
    simp [loadOrCreateWallet, hlist, hload, hcreate, hmatch, hload2]
  · intro σ ops st name e1 e hlist hload hcreate hmatch
    simp [loadOrCreateWallet, hlist, hload, hcreate, hmatch]

/-- Witness for C1: the idempotence, trace, race-recovery, and propagation conclusions at
concrete states ("w" on disk and unloaded, loaded, nonexistent) and the two scripted
nodes. -/
theorem loadOrCreateWallet_idempotent_c1_witness :
    (∃ st' : NodeState,
      (loadOrCreateWallet stdOps ⟨["w"], []⟩ "w").1 = st' ∧
      (loadOrCreateWallet stdOps ⟨["w"], []⟩ "w").2.1 = .ok "w" ∧
      loadOrCreateWallet stdOps st' "w" = (st', .ok "w", ["listwallets"])) ∧
    (loadOrCreateWallet stdOps ⟨["w"], ["w"]⟩ "w").2.2 = ["listwallets"] ∧
    (loadOrCreateWallet stdOps ⟨["w"], []⟩ "w").2.2 = ["listwallets", "loadwallet"] ∧
    (loadOrCreateWallet stdOps ⟨[], []⟩ "w").2.2 =
      ["listwallets", "loadwallet", "createwallet"] ∧
    (loadOrCreateWallet raceOps 0 "w").2.1 = .ok "w" ∧
    (loadOrCreateWallet busyOps 0 "w").2.1 = .error ⟨-28, "Loading block index"⟩ :=
  ⟨loadOrCreateWallet_idempotent_c1.1 ⟨["w"], []⟩ "w" (List.nil_subset _),
   (loadOrCreateWallet_idempotent_c1.2.1 ⟨["w"], ["w"]⟩ "w").1 (by decide),
   (loadOrCreateWallet_idempotent_c1.2.1 ⟨["w"], []⟩ "w").2.1 (by decide) (by decide),
   (loadOrCreateWallet_idempotent_c1.2.1 ⟨[], []⟩ "w").2.2 (by decide) (by decide),
   loadOrCreateWallet_idempotent_c1.2.2.1 Nat raceOps 0 "w"
     ⟨-4, "Unable to obtain an exclusive lock"⟩
     ⟨-4, "Failed to create database path. Database already exists."⟩
     (by decide) rfl rfl (by decide) rfl,
   loadOrCreateWallet_idempotent_c1.2.2.2 Nat busyOps 0 "w"
     ⟨-18, "Wallet file not found."⟩ ⟨-28, "Loading block index"⟩
     (by decide) rfl rfl (by decide)⟩

/-- **C5.** The coordinator-wallet selection of `setupMultisigWithTwoWallets` is a no-op
reduction: for every nonempty signer list, whatever the field values of the signers (and
hence whatever the balances of their wallets), it returns the first signer wallet. -/
theorem coordinatorWalletOf_first_c5 (s : Signer) (rest : List Signer) :
    coordinatorWalletOf (s :: rest) = some s.wallet := by
  have h : ∀ (l : List Signer) (a : Signer),
      l.foldl (fun prev current => if prev.wallet = current.wallet then prev else prev) a
        = a := by
    intro l
    induction l with
    | nil => intro a; rfl
    | cons b t ih => intro a; simp [ih]
  simp [coordinatorWalletOf, h]

/-- **C7.** The waste-heavy RBF loop makes exactly 3 bump attempts with fee rates 10, 15,
20 in that order, regardless of which attempts fail (a caught failure never prevents the
later attempts), and the txid it holds at the end is the one returned by the last
successful bump — the id of the original send when every bump fails — never one returned
by a failed attempt. -/
theorem rbfBumpLoop_c7 (orig : String) (bump : Nat → Nat → Option String) :
    (rbfBumpLoop orig bump).2 = [(0, 10), (1, 15), (2, 20)] ∧
    (rbfBumpLoop orig bump).1 =
      (match bump 2 20 with
       | some t => t
       | none =>
         match bump 1 15 with
         | some t => t
         | none =>
           match bump 0 10 with
           | some t => t
           | none => orig) := by
  have hr : List.range 3 = [0, 1, 2] := rfl
  constructor
  · simp only [rbfBumpLoop, hr]
    cases h0 : bump 0 10 <;> cases h1 : bump 1 15 <;> cases h2 : bump 2 20 <;>
      simp [h0, h1, h2]
  · simp only [rbfBumpLoop, hr]
    cases h0 : bump 0 10 <;> cases h1 : bump 1 15 <;> cases h2 : bump 2 20 <;>
      simp [h0, h1, h2]

/-- Inserting a key not already present in a JS object appends the binding. -/
theorem objInsert_fresh (m : List (String × Rat)) (k : String) (v : Rat)
    (h : ∀ e ∈ m, e.1 ≠ k) : objInsert m k v = m ++ [(k, v)] := by
  have hc : m.any (fun e => e.1 = k) = false := by
    simp only [List.any_eq_false, decide_eq_true_eq]
    exact h
  simp [objInsert, hc]

/-- Folding JS object insertion over pairwise-fresh keys yields one binding per key, in
order. -/
theorem foldl_objInsert_fresh (addr : Nat → String) (v : Rat) :
    ∀ (l : List Nat) (m : List (String × Rat)),
      (m.map Prod.fst ++ l.map addr).Nodup →
      l.foldl (fun m2 i => objInsert m2 (addr i) v) m = m ++ l.map fun i => (addr i, v) := by
  intro l
  induction l with
  | nil => intro m _; simp
  | cons i t ih =>
    intro m h
    have h2 := h
    rw [List.map_cons, List.append_cons] at h2
    have hfresh : ∀ e ∈ m, e.1 ≠ addr i := by
      intro e he heq
      rw [List.map_cons] at h
      have hd := (List.nodup_append.mp h).2.2
      exact hd (heq ▸ List.mem_map_of_mem Prod.fst he) (List.mem_cons_self _ _)
    rw [List.foldl_cons, objInsert_fresh m (addr i) v hfresh, ih (m ++ [(addr i, v)])]
    · simp
    · simpa using h2

/-- **C8.** The waste-heavy dust step: with 20 freshly generated (hence pairwise-distinct)
addresses, the output object sent by the single `sendmany` call has exactly 20 entries,
one per address, each valued 0.00001, and exactly one confirming block is mined. -/
theorem dustStep_c8 (addr : Nat → String)
    (hfresh : ((List.range 20).map addr).Nodup) :
    (dustStep addr).1 = ((List.range 20).map fun i => (addr i, 1 / 100000)) ∧
    (dustStep addr).1.length = 20 ∧
    ((dustStep addr).1.all fun e => e.2 == 1 / 100000) = true ∧
    (dustStep addr).2.1 = 1 ∧ (dustStep addr).2.2 = 1 := by
  have h := foldl_objInsert_fresh addr (1 / 100000) (List.range 20) [] (by simpa using hfresh)
  have h1 : (dustStep addr).1 = ((List.range 20).map fun i => (addr i, 1 / 100000)) := by
    simpa [dustStep] using h
  refine ⟨h1, ?_, ?_, rfl, rfl⟩
  · simp [h1]
  · simp [h1, List.all_eq_true]

/-- Witness for C8 at a concrete injective address supply. -/
theorem dustStep_c8_witness :
    (dustStep Nat.repr).1 = ((List.range 20).map fun i => (Nat.repr i, 1 / 100000)) ∧
    (dustStep Nat.repr).1.length = 20 ∧
    ((dustStep Nat.repr).1.all fun e => e.2 == 1 / 100000) = true ∧
    (dustStep Nat.repr).2.1 = 1 ∧ (dustStep Nat.repr).2.2 = 1 :=
  dustStep_c8 Nat.repr (by decide)

/-- A poll that does not stop the `syncWallet` loop advances it to the next attempt. -/
theorem syncWalletLoop_step_next (gb : Nat → Except Unit Rat) (a : Nat)
    (ha : a < 20) (h : pollSuccess (gb a) = false) :
    syncWalletLoop gb a = syncWalletLoop gb (a + 1) := by
  conv_lhs => rw [syncWalletLoop.eq_def]
  rw [if_pos ha]
  cases hg : gb a with
  | ok b =>
    have hb : ¬ 0 < b := by simpa [pollSuccess, hg] using h
    simp [hg, hb]
  | error e => simp [hg]

/-- A successful positive-balance poll stops the `syncWallet` loop at once. -/
theorem syncWalletLoop_step_stop (gb : Nat → Except Unit Rat) (a : Nat)
    (ha : a < 20) (h : pollSuccess (gb a) = true) :
    syncWalletLoop gb a = ⟨a + 1, true, false⟩ := by
  rw [syncWalletLoop.eq_def, if_pos ha]
  cases hg : gb a with
  | ok b =>
    have hb : 0 < b := by simpa [pollSuccess, hg] using h
    simp [hg, hb]
  | error e => simp [pollSuccess, hg] at h

/-- When no poll ever reports a positive balance, the loop uses all 20 attempts and ends
in the timeout state. -/
theorem syncWalletLoop_timeout (gb : Nat → Except Unit Rat)
    (hall : ∀ j, j < 20 → pollSuccess (gb j) = false) :
    ∀ (n a : Nat), 20 - a = n → a ≤ 20 → syncWalletLoop gb a = ⟨20, false, true⟩ := by
  intro n
  induction n with
  | zero =>
    intro a h1 h2
    have ha : a = 20 := by omega
    subst ha
    rw [syncWalletLoop.eq_def]
    simp
  | succ k ih =>
    intro a h1 h2
    have ha : a < 20 := by omega
    rw [syncWalletLoop_step_next gb a ha (hall a ha)]
    exact ih (a + 1) (by omega) (by omega)

/-- When poll `k` is the first to report a positive balance, the loop stops right after
it. -/
theorem syncWalletLoop_converge (gb : Nat → Except Unit Rat) (k : Nat) (hk : k < 20)
    (hs : pollSuccess (gb k) = true) (hprev : ∀ j, j < k → pollSuccess (gb j) = false) :
    ∀ (n a : Nat), k - a = n → a ≤ k → syncWalletLoop gb a = ⟨k + 1, true, false⟩ := by
  intro n
  induction n with
  | zero =>
    intro a h1 h2
    have ha : a = k := by omega
    subst ha
    exact syncWalletLoop_step_stop gb a hk hs
  | succ m ih =>
    intro a h1 h2
    have hak : a < k := by omega
    rw [syncWalletLoop_step_next gb a (by omega) (hprev a hak)]
    exact ih (a + 1) (by omega) (by omega)

/-- **C9.** `syncWallet` depends only on the balance polls, never on the chain height it
queries first; it converges as soon as one `getbalance` poll returns a strictly positive
balance (using that many polls and no rescan); and whenever every poll fails or returns a
non-positive balance it performs exactly 20 polls and then issues `rescanblockchain`,
whatever the chain height — even for a wallet already at chain tip. -/
theorem syncWallet_c9 :
    (∀ (height1 height2 : Nat) (gb : Nat → Except Unit Rat),
      syncWallet height1 gb = syncWallet height2 gb)
    ∧ (∀ (height k : Nat) (gb : Nat → Except Unit Rat), k < 20 →
        pollSuccess (gb k) = true → (∀ j, j < k → pollSuccess (gb j) = false) →
        syncWallet height gb = ⟨k + 1, true, false⟩)
    ∧ (∀ (height : Nat) (gb : Nat → Except Unit Rat),
        (∀ j, j < 20 → pollSuccess (gb j) = false) →
        syncWallet height gb = ⟨20, false, true⟩) := by
  refine ⟨fun _ _ _ => rfl, ?_, ?_⟩
  · intro height k gb hk hs hprev
    exact syncWalletLoop_converge gb k hk hs hprev k 0 (by omega) (by omega)
  · intro height gb hall
    exact syncWalletLoop_timeout gb hall 20 0 (by omega) (by omega)

/-- Witness for C9: height-independence, convergence on the third poll of `gbHit`
(zero balance, then a thrown call, then balance 5), and the 20-poll timeout with rescan on
the all-zero `gbZero`. -/
theorem syncWallet_c9_witness :
    syncWallet 0 gbHit = syncWallet 999 gbHit ∧
    syncWallet 7 gbHit = ⟨3, true, false⟩ ∧
    syncWallet 7 gbZero = ⟨20, false, true⟩ :=
  ⟨syncWallet_c9.1 0 999 gbHit,
   syncWallet_c9.2.1 7 2 gbHit (by decide) (by decide) (by decide),
   syncWallet_c9.2.2 7 gbZero (by decide)⟩

/-- **C10.** The written Caravan fixture is independent of the loaded configuration
(in particular of its network field, which may be `signet`) and always has network
"regtest", addressType "P2WSH", startingAddressIndex 0, and, in every extended-public-key
entry, the fixed bip32Path literal (m/84h/0h/0h written with hardened-derivation
marks, the \x27 escapes below) and method "text". -/
theorem saveCaravanConfig_c10 (cfg cfg2 : RegtestConfig) (sn : String)
    (sd : List SignerData) :
    saveCaravanConfig cfg sn sd = saveCaravanConfig cfg2 sn sd ∧
    (saveCaravanConfig cfg sn sd).network = "regtest" ∧
    (saveCaravanConfig cfg sn sd).addressType = "P2WSH" ∧
    (saveCaravanConfig cfg sn sd).startingAddressIndex = 0 ∧
    ((saveCaravanConfig cfg sn sd).extendedPublicKeys.all fun e =>
      e.bip32Path == "m/84\x27/0\x27/0\x27" && e.method == "text") = true := by
  refine ⟨rfl, rfl, rfl, rfl, ?_⟩
  simp [saveCaravanConfig, List.all_eq_true]

/-- **C2.** What the program actually does for the `privacy-good` selector: the main
runner dispatches to *no* generator (its `privacy-good` branch is commented out in the
source), and for `all` it runs only `wasteHeavy` — while the `privacyGood` generator
itself, had it been dispatched, performs exactly 10 sends of amount 1.0 (each to a fresh
address) and the fixture it would write has quorum `{requiredSigners: 2,
totalSigners: 2}`. -/
theorem scenariosRun_privacy_good_c2 :
    scenariosRun "privacy-good" = [] ∧
    scenariosRun "all" = [Scenario.wasteHeavyS] ∧
    (∀ addr : Nat → String,
      (privacyGoodSends addr).length = 10 ∧
      ((privacyGoodSends addr).all fun p => p.2 == 1) = true) ∧
    (∀ (cfg : RegtestConfig) (sd : List SignerData),
      (saveCaravanConfig cfg "privacy_good" sd).quorum = ⟨2, 2⟩) := by
  refine ⟨by decide, by decide, fun addr => ⟨?_, ?_⟩, fun _ _ => rfl⟩
  · simp [privacyGoodSends]
  · simp [privacyGoodSends, List.all_eq_true]

/-- A character list is the data of the empty string exactly when it is nil. -/
theorem stringMk_eq_empty_iff (l : List Char) : String.mk l = "" ↔ l = [] := by
  constructor
  · intro h
    exact congrArg String.data h
  · intro h
    subst h
    rfl

/-- `padStart(8, "0")` never produces the empty string. -/
theorem padZeros8_ne_empty (s : String) : padZeros8 s ≠ "" := by
  intro h
  have hl := congrArg String.length h
  rw [padZeros8, String.length_append] at hl
  have h8 : (String.mk (List.replicate (8 - s.length) '0')).length
      = 8 - s.length := by
    show (List.replicate (8 - s.length) '0').length = 8 - s.length
    simp
  rw [h8] at hl
  have h0 : ("" : String).length = 0 := rfl
  rw [h0] at hl
  omega

/-- **C3 (counterexample).** The extraction block does *not* always return three
non-empty strings: when `listdescriptors` succeeds with an empty descriptor list, the
`try` block does nothing, no exception reaches the fallback tiers, and the returned
pubkey and xpub are both `""`. -/
theorem extractKeys_c3_counterexample :
    ¬ (∀ (c : ExtractCalls) (i : Nat) (t : String × String × String),
        extractKeys c i = .ok t → t.1 ≠ "" ∧ t.2.1 ≠ "" ∧ t.2.2 ≠ "") := by
  intro hclaim
  exact (hclaim emptyDescCalls 0 ("", "", "00000000") rfl).1 rfl

/-- A string whose character list is nil is the empty string. -/
theorem string_toList_eq_nil (s : String) : s.toList = [] ↔ s = "" :=
  (stringMk_eq_empty_iff s.data).symm

/-- The first 8 characters of a non-empty string form a non-empty string. -/
theorem seedTake8_ne_empty (seed : String) (hs : seed ≠ "") :
    String.mk (seed.toList.take 8) ≠ "" := by
  rw [ne_eq, stringMk_eq_empty_iff]
  intro htake
  rcases List.take_eq_nil_iff.mp htake with h0 | hnil
  · exact absurd h0 (by decide)
  · exact hs ((string_toList_eq_nil seed).mp hnil)

/-- The fingerprint group read from a descriptor is non-empty whenever the regex only
produces non-empty fingerprint captures. -/
theorem descGroups_fst_ne_empty (c : ExtractCalls) (descs : List String)
    (hre : ∀ d f x, c.descMatch d = some (f, x) → f ≠ "") :
    (descGroups c descs).1 ≠ "" := by
  rw [descGroups]
  split
  next m heq => exact hre _ m.1 m.2 heq
  next heq => decide

/-- A completed `try` tier always carries a non-empty fingerprint (given non-empty regex
fingerprint captures). -/
theorem extractKeysTry_xfp_ne_empty (c : ExtractCalls)
    (hre : ∀ d f x, c.descMatch d = some (f, x) → f ≠ "")
    (t : String × String × String) (h : extractKeysTry c = .ok t) : t.2.2 ≠ "" := by
  rw [extractKeysTry] at h
  split at h
  next e heq => exact Except.noConfusion h
  next descs heq =>
    split at h
    · split at h
      next e heq2 => exact Except.noConfusion h
      next pk heq2 =>
        injection h with h2
        subst h2
        exact descGroups_fst_ne_empty c descs hre
    · injection h with h2
      subst h2
      decide

/-- A completed `catch` tier always carries a non-empty fingerprint. -/
theorem extractKeysCatch_xfp_ne_empty (c : ExtractCalls) (i : Nat)
    (t : String × String × String) (h : extractKeysCatch c i = .ok t) : t.2.2 ≠ "" := by
  rw [extractKeysCatch] at h
  split at h
  next e heq => exact Except.noConfusion h
  next pk heq =>
    split at h
    next seed heq2 =>
      split at h
      next hseed =>
        injection h with h2
        subst h2
        exact seedTake8_ne_empty seed hseed
      next hseed =>
        injection h with h2
        subst h2
        show ("00000000" : String) ≠ ""
        decide
    next e heq2 =>
      injection h with h2
      subst h2
      exact padZeros8_ne_empty _

/-- **C3 (amended).** The fallback tiers are tried in order with the first success
winning, and the *fingerprint* component of a returned triple is always non-empty (the
regex capture group for it is 8 hex characters, hence the hypothesis on `descMatch`); but
the pubkey and xpub components are not guaranteed non-empty: on an empty descriptor list
the extraction returns `("", "", "00000000")`. -/
theorem extractKeys_xfp_nonempty_c3 (c : ExtractCalls) (i : Nat)
    (hre : ∀ d f x, c.descMatch d = some (f, x) → f ≠ "")
    (t : String × String × String) (h : extractKeys c i = .ok t) :
    t.2.2 ≠ "" ∧ (c.listdescriptors = .ok [] → t = ("", "", "00000000")) := by
  constructor
  · rw [extractKeys] at h
    split at h
    next r heq =>
      injection h with h2
      subst h2
      exact extractKeysTry_xfp_ne_empty c hre r heq
    next e heq => exact extractKeysCatch_xfp_ne_empty c i t h
  · intro hld
    have he : extractKeysTry c = .ok ("", "", "00000000") := by
      simp [extractKeysTry, hld]
    rw [extractKeys, he] at h
    injection h with h2
    exact h2.symm

/-- Witness for C3 (amended), at the scripted outcomes exercising the `catch` tier with a
seeded wallet: the fingerprint comes out as the first 8 characters of the seed id. -/
theorem extractKeys_xfp_nonempty_c3_witness :
    (("02ff", synthXpub "02ff" 0,
        String.mk ("deadbeef01".toList.take 8)) : String × String × String).2.2 ≠ "" ∧
    (seededCatchCalls.listdescriptors = .ok [] →
      (("02ff", synthXpub "02ff" 0,
        String.mk ("deadbeef01".toList.take 8)) : String × String × String)
        = ("", "", "00000000")) :=
  extractKeys_xfp_nonempty_c3 seededCatchCalls 0
    (fun _ _ _ hcon => Option.noConfusion hcon)
    ("02ff", synthXpub "02ff" 0, String.mk ("deadbeef01".toList.take 8)) rfl

/-- **C4 (counterexample).** The re-check does *not* use the spend threshold 15: with an
initial balance 0 and a re-checked balance 12 — still below 15 — no error is raised and
assembly proceeds, because the source compares the re-checked balance against 10. -/
theorem multisigBalanceCheck_c4_counterexample :
    (0 : Rat) < 15 ∧ (12 : Rat) < 15 ∧
    multisigBalanceCheck 0 12 = (.ok 12, 75) := by
  refine ⟨by norm_num, by norm_num, ?_⟩
  rw [multisigBalanceCheck, if_pos (by norm_num : (0 : Rat) < 15),
    if_neg (by norm_num : ¬ (12 : Rat) < 10)]

/-- **C4 (amended).** Assembly checks the coordinator balance against 15; when it is
lower it mines 75 blocks to every signer wallet and re-checks, raising the
insufficient-funds error (carrying the observed balance) iff the re-checked balance is
below 10 — a lower bar than the initial 15 check; otherwise it proceeds. -/
theorem multisigBalanceCheck_c4 (balance rechecked : Rat) :
    (¬ balance < 15 → multisigBalanceCheck balance rechecked = (.ok balance, 0)) ∧
    (balance < 15 →
      (multisigBalanceCheck balance rechecked).2 = 75 ∧
      ((multisigBalanceCheck balance rechecked).1 = .error ⟨rechecked⟩ ↔ rechecked < 10) ∧
      (¬ rechecked < 10 →
        (multisigBalanceCheck balance rechecked).1 = .ok rechecked)) := by
  constructor
  · intro h
    simp [multisigBalanceCheck, h]
  · intro h
    by_cases hr : rechecked < 10 <;> simp [multisigBalanceCheck, h, hr]

/-- Witness for C4 (amended): balance 20 passes the first check untouched; balance 0 with
re-checked balance 5 raises the error carrying 5; re-checked balance 12 proceeds. -/
theorem multisigBalanceCheck_c4_witness :
    multisigBalanceCheck 20 3 = (.ok 20, 0) ∧
    (multisigBalanceCheck 0 5).2 = 75 ∧
    (multisigBalanceCheck 0 5).1 = .error ⟨5⟩ ∧
    (multisigBalanceCheck 0 12).1 = .ok 12 :=
  ⟨(multisigBalanceCheck_c4 20 3).1 (by norm_num),
   ((multisigBalanceCheck_c4 0 5).2 (by norm_num)).1,
   ((multisigBalanceCheck_c4 0 5).2 (by norm_num)).2.1.mpr (by norm_num),
   ((multisigBalanceCheck_c4 0 12).2 (by norm_num)).2.2 (by norm_num)⟩

/-- **C6 (counterexample).** Not every waste-pattern failure is caught: a throw inside
pattern 1 (the dust `sendmany`) has no surrounding try/catch and aborts the scenario
instead of letting it continue. -/
theorem wasteHeavyPatterns_c6_counterexample :
    wasteHeavyPatterns dustFailOutcomes = .error "sendmany failed" ∧
    ¬ ∃ log, wasteHeavyPatterns dustFailOutcomes = .ok log := by
  refine ⟨rfl, ?_⟩
  rintro ⟨log, hlog⟩
  rw [show wasteHeavyPatterns dustFailOutcomes = .error "sendmany failed" from rfl] at hlog
  exact Except.noConfusion hlog

/-- **C6 (amended).** Failures are caught and logged only for the individually guarded
parts: the five OP_RETURN attempts of pattern 5, the RBF block (pattern 6), and the
unconfirmed chain (pattern 7) — the scenario then continues.  A throw in any of
patterns 1-4 propagates unchanged and aborts the scenario. -/
theorem wasteHeavyPatterns_c6 :
    (∀ (o : WastePatternOutcomes) (e : String),
      o.dust = .error e → wasteHeavyPatterns o = .error e)
    ∧ (∀ (o : WastePatternOutcomes) (e : String),
      o.dust = .ok () → o.smallUtxos = .error e → wasteHeavyPatterns o = .error e)
    ∧ (∀ (o : WastePatternOutcomes) (e : String),
      o.dust = .ok () → o.smallUtxos = .ok () → o.weirdChange = .error e →
      wasteHeavyPatterns o = .error e)
    ∧ (∀ (o : WastePatternOutcomes) (e : String),
      o.dust = .ok () → o.smallUtxos = .ok () → o.weirdChange = .ok () →
      o.consolidation = .error e → wasteHeavyPatterns o = .error e)
    ∧ (∀ o : WastePatternOutcomes,
      o.dust = .ok () → o.smallUtxos = .ok () → o.weirdChange = .ok () →
      o.consolidation = .ok () →
      ∃ log, wasteHeavyPatterns o = .ok log ∧
        (∀ j, j < 5 → ∀ e, o.opReturnAttempt j = .error e → e ∈ log) ∧
        (∀ e, o.rbf = .error e → e ∈ log) ∧
        (∀ e, o.chain = .error e → e ∈ log)) := by
  refine ⟨?_, ?_, ?_, ?_, ?_⟩
  · intro o e h
    simp [wasteHeavyPatterns, h]
  · intro o e h1 h
    simp [wasteHeavyPatterns, h1, h]
  · intro o e h1 h2 h
    simp [wasteHeavyPatterns, h1, h2, h]
  · intro o e h1 h2 h3 h
    simp [wasteHeavyPatterns, h1, h2, h3, h]
  · intro o h1 h2 h3 h4
    have hmain : wasteHeavyPatterns o =
        .ok ((((List.range 5).filterMap fun j =>
            match o.opReturnAttempt j with
            | .ok _ => none
            | .error e => some e) ++
          (match o.rbf with | .ok _ => [] | .error e => [e])) ++
          (match o.chain with | .ok _ => [] | .error e => [e])) := by
      simp only [wasteHeavyPatterns, h1, h2, h3, h4]
    refine ⟨_, hmain, ?_, ?_, ?_⟩
    · intro j hj e he
      apply List.mem_append_left
      apply List.mem_append_left
      rw [List.mem_filterMap]
      exact ⟨j, List.mem_range.mpr hj, by rw [he]⟩
    · intro e he
      apply List.mem_append_left
      apply List.mem_append_right
      simp [he]
    · intro e he
      apply List.mem_append_right
      simp [he]

/-- Witness for C6 (amended): with patterns 1-4 succeeding and failures inside
pattern 5 (attempt 3) and pattern 6, the scenario completes and both failures appear in
the caught-failure log. -/
theorem wasteHeavyPatterns_c6_witness :
    ∃ log, wasteHeavyPatterns tailFailOutcomes = .ok log ∧
      (∀ j, j < 5 → ∀ e, tailFailOutcomes.opReturnAttempt j = .error e → e ∈ log) ∧
      (∀ e, tailFailOutcomes.rbf = .error e → e ∈ log) ∧
      (∀ e, tailFailOutcomes.chain = .error e → e ∈ log) :=
  wasteHeavyPatterns_c6.2.2.2.2 tailFailOutcomes rfl rfl rfl rfl

end Caravan
